import Mathlib

/-
Verification of the remote matching and metadata cache core of the
DesignCodeUtility repository (file src/DesignCodeUtility/src/metadata.js).

The JavaScript module is shallowly embedded as follows.

The process wide mutable object named cache in the source is modelled as an
explicit Cache value produced by the loader functions; JavaScript Map objects
become association lists (JsMap) with the set and get operations of JS Maps;
plain JS objects used as dictionaries share the same model. Field access on a
null record, which throws a TypeError in JavaScript, is modelled with the
Except monad over the JsError type. The logger calls info and warn become an
output list of message keys carried in the successful result of each matcher,
so that two call sites are distinguishable exactly when the source would print
different messages. The inTransferMode flag of the state module is passed as
an explicit boolean where the source consults it. Fetches performed through
endPointTransceiver are modelled as explicit arguments holding the fetched
payload (or a failure); the reads of the tracking metadata store performed by
readMetadataFromDisk are modelled by a Disk record holding one partial map per
metadata file type, since readMetadataFromDisk(path, type) is a pure lookup of
the record stored for that path and type.
-/

/-- Model of a thrown JavaScript error. The only error the embedded code can
throw is a TypeError from dereferencing a null or undefined value. -/
inductive JsError where
  | typeError
deriving DecidableEq, Repr

/-- Association list model of a JavaScript Map with string keys. Insertion
order of the underlying list mirrors the insertion order a JS Map keeps. -/
def JsMap (α : Type) : Type := List (String × α)

instance (α : Type) [DecidableEq α] : DecidableEq (JsMap α) := by
  unfold JsMap
  infer_instance

instance (α : Type) [Repr α] : Repr (JsMap α) := by
  unfold JsMap
  infer_instance

instance (ε α : Type) [DecidableEq ε] [DecidableEq α] : DecidableEq (Except ε α) :=
  fun a b =>
    match a, b with
    | .error e1, .error e2 =>
      if h : e1 = e2 then .isTrue (congrArg Except.error h)
      else .isFalse fun hc => h (Except.error.inj hc)
    | .ok x, .ok y =>
      if h : x = y then .isTrue (congrArg Except.ok h)
      else .isFalse fun hc => h (Except.ok.inj hc)
    | .error _, .ok _ => .isFalse fun hc => Except.noConfusion hc
    | .ok _, .error _ => .isFalse fun hc => Except.noConfusion hc

/-- Model of Map.prototype.get: the value stored under the key, if any. -/
def mapGet {α : Type} (m : JsMap α) (k : String) : Option α :=
  match m with
  | [] => none
  | (k2, v) :: rest => if k2 = k then some v else mapGet rest k

/-- Model of Map.prototype.set: replaces the value of an existing key in
place, otherwise appends a new entry. -/
def mapSet {α : Type} (m : JsMap α) (k : String) (v : α) : JsMap α :=
  match m with
  | [] => [(k, v)]
  | (k2, v2) :: rest => if k2 = k then (k, v) :: rest else (k2, v2) :: mapSet rest k v

/-- Applies a list of key value pairs to a map by successive mapSet calls, in
list order. The forEach loops of the cache loaders reduce to this form. -/
def applyList {α : Type} : List (String × α) → JsMap α → JsMap α
  | [], m => m
  | kv :: rest, m => applyList rest (mapSet m kv.1 kv.2)

theorem foldl_mapSet_eq_applyList {α : Type} (l : List (String × α)) (m : JsMap α) :
    l.foldl (fun acc kv => mapSet acc kv.1 kv.2) m = applyList l m := by
  induction l generalizing m with
  | nil => rfl
  | cons hd tl ih => simp [applyList, List.foldl_cons, ih]

theorem mapGet_mapSet_self {α : Type} (m : JsMap α) (k : String) (v : α) :
    mapGet (mapSet m k v) k = some v := by
  induction m with
  | nil => simp [mapGet, mapSet]
  | cons hd tl ih =>
    obtain ⟨k2, v2⟩ := hd
    by_cases h : k2 = k <;> simp [mapGet, mapSet, h, ih]

theorem mapGet_mapSet_ne {α : Type} (m : JsMap α) {k k2 : String} (v : α)
    (h : k ≠ k2) : mapGet (mapSet m k v) k2 = mapGet m k2 := by
  induction m with
  | nil => simp [mapGet, mapSet, h]
  | cons hd tl ih =>
    obtain ⟨k3, v3⟩ := hd
    by_cases h3 : k3 = k
    · subst h3
      simp [mapGet, mapSet, h]
    · simp only [mapSet, if_neg h3]
      by_cases h4 : k3 = k2 <;> simp [mapGet, h4, ih]

theorem mapSet_mapSet_self {α : Type} (m : JsMap α) (k : String) (a b : α) :
    mapSet (mapSet m k a) k b = mapSet m k b := by
  induction m with
  | nil => simp [mapSet]
  | cons hd tl ih =>
    obtain ⟨k2, v2⟩ := hd
    by_cases h : k2 = k <;> simp [mapSet, h, ih]

theorem mapGet_applyList_not_mem {α : Type} (l : List (String × α))
    (m : JsMap α) (k : String) (h : k ∉ l.map Prod.fst) :
    mapGet (applyList l m) k = mapGet m k := by
  induction l generalizing m with
  | nil => rfl
  | cons hd tl ih =>
    obtain ⟨k2, v2⟩ := hd
    simp only [List.map_cons, List.mem_cons] at h
    push_neg at h
    simp only [applyList]
    rw [ih _ h.2, mapGet_mapSet_ne m v2 h.1.symm]

theorem mapGet_applyList_mem_indep {α : Type} (l : List (String × α))
    (m1 m2 : JsMap α) (k : String) (h : k ∈ l.map Prod.fst) :
    mapGet (applyList l m1) k = mapGet (applyList l m2) k := by
  induction l generalizing m1 m2 with
  | nil => cases h
  | cons hd tl ih =>
    obtain ⟨k2, v2⟩ := hd
    simp only [applyList]
    by_cases htl : k ∈ tl.map Prod.fst
    · exact ih _ _ htl
    · simp only [List.map_cons, List.mem_cons] at h
      rcases h with h | h
    -- the key is bound by the head pair and untouched afterwards
      · subst h
        rw [mapGet_applyList_not_mem tl _ k htl, mapGet_applyList_not_mem tl _ k htl,
          mapGet_mapSet_self, mapGet_mapSet_self]
      · exact absurd h htl

theorem mapGet_applyList_none_iff {α : Type} (l : List (String × α))
    (m : JsMap α) (k : String) :
    mapGet (applyList l m) k = none ↔ (mapGet m k = none ∧ k ∉ l.map Prod.fst) := by
  induction l generalizing m with
  | nil => simp [applyList]
  | cons hd tl ih =>
    obtain ⟨k2, v2⟩ := hd
    simp only [applyList]
    rw [ih]
    constructor
    · rintro ⟨hget, hmem⟩
      by_cases hk : k2 = k
      · subst hk
        rw [mapGet_mapSet_self] at hget
        cases hget
      · rw [mapGet_mapSet_ne m v2 hk] at hget
        simp only [List.map_cons, List.mem_cons]
        push_neg
        exact ⟨hget, fun he => hk he.symm, hmem⟩
    · rintro ⟨hget, hmem⟩
      simp only [List.map_cons, List.mem_cons] at hmem
      push_neg at hmem
      rw [mapGet_mapSet_ne m v2 (fun he => hmem.1 he.symm)]
      exact ⟨hget, hmem.2⟩

theorem mapGet_applyList_nodup_mem {α : Type} (l : List (String × α))
    (m : JsMap α) (k : String) (v : α) (hnd : (l.map Prod.fst).Nodup)
    (hmem : (k, v) ∈ l) : mapGet (applyList l m) k = some v := by
  induction l generalizing m with
  | nil => cases hmem
  | cons hd tl ih =>
    obtain ⟨k2, v2⟩ := hd
    simp only [List.map_cons, List.nodup_cons] at hnd
    simp only [applyList]
    rcases List.mem_cons.mp hmem with heq | htl
    · rw [Prod.mk.injEq] at heq
      obtain ⟨rfl, rfl⟩ := heq
      rw [mapGet_applyList_not_mem tl _ k hnd.1, mapGet_mapSet_self]
    · exact ih _ hnd.2 htl

/-- Key creation for the widget and stack instance caches, metadata.js lines
61 to 63. The template literal stringifies the numeric version, which the
embedding renders with Nat.repr. -/
def makeWidgetInstanceKey (displayName : String) (version : Nat) : String :=
  "Display Name: " ++ displayName ++ " Version: " ++ Nat.repr version

/-- Decimal digit list of a natural number, most significant digit first.
Auxiliary reformulation of Nat.toDigits 10 without fuel, used to reason about
the stringified version inside makeWidgetInstanceKey. -/
def natDigits (n : Nat) : List Char :=
  if h : n < 10 then [Nat.digitChar n]
  else natDigits (n / 10) ++ [Nat.digitChar (n % 10)]
decreasing_by exact Nat.div_lt_self (by omega) (by omega)

theorem toDigitsCore_eq_natDigits (fuel n : Nat) (ds : List Char)
    (h : n < fuel) : Nat.toDigitsCore 10 fuel n ds = natDigits n ++ ds := by
  induction fuel generalizing n ds with
  | zero => omega
  | succ fuel ih =>
    rw [Nat.toDigitsCore]
    by_cases h10 : n / 10 = 0
    · have hlt : n < 10 := by omega
      rw [if_pos h10, natDigits, dif_pos hlt, Nat.mod_eq_of_lt hlt]
      rfl
    · have hge : ¬ n < 10 := by omega
      rw [if_neg h10, ih (n / 10) _ (by omega)]
      conv_rhs => rw [natDigits, dif_neg hge]
      simp

theorem repr_data_eq_natDigits (n : Nat) : (Nat.repr n).data = natDigits n := by
  show (Nat.toDigits 10 n).asString.data = natDigits n
  rw [Nat.toDigits, toDigitsCore_eq_natDigits (n + 1) n [] (Nat.lt_succ_self n)]
  simp [List.asString]

theorem digitChar_isDigit (k : Nat) (h : k < 10) :
    (Nat.digitChar k).isDigit = true := by
  interval_cases k <;> decide

theorem natDigits_all_digit (n : Nat) : ∀ c ∈ natDigits n, c.isDigit = true := by
  induction n using Nat.strong_induction_on with
  | _ n ih =>
    rw [natDigits]
    by_cases h : n < 10
    · rw [dif_pos h]
      intro c hc
      rw [List.mem_singleton] at hc
      subst hc
      exact digitChar_isDigit n h
    · rw [dif_neg h]
      intro c hc
      rcases List.mem_append.mp hc with hc | hc
      · exact ih (n / 10) (Nat.div_lt_self (by omega) (by omega)) c hc
      · rw [List.mem_singleton] at hc
        subst hc
        exact digitChar_isDigit (n % 10) (Nat.mod_lt n (by omega))

theorem digitChar_toNat (k : Nat) (h : k < 10) :
    (Nat.digitChar k).toNat = 48 + k := by
  interval_cases k <;> decide

/-- Numeric value of a digit list, used to show natDigits is injective. -/
def digitsVal (ds : List Char) : Nat :=
  ds.foldl (fun a c => 10 * a + (c.toNat - 48)) 0

theorem digitsVal_natDigits (n : Nat) : digitsVal (natDigits n) = n := by
  induction n using Nat.strong_induction_on with
  | _ n ih =>
    rw [natDigits]
    by_cases h : n < 10
    · rw [dif_pos h]
      simp [digitsVal, digitChar_toNat n h]
    · rw [dif_neg h]
      have hrec := ih (n / 10) (Nat.div_lt_self (by omega) (by omega))
      simp only [digitsVal, List.foldl_append, List.foldl_cons, List.foldl_nil] at hrec ⊢
      rw [hrec, digitChar_toNat (n % 10) (Nat.mod_lt n (by omega))]
      omega

theorem natDigits_injective {m n : Nat} (h : natDigits m = natDigits n) :
    m = n := by
  have hm := digitsVal_natDigits m
  rw [h, digitsVal_natDigits] at hm
  exact hm.symm

theorem repr_no_space (n : Nat) : ' ' ∉ (Nat.repr n).data := by
  rw [repr_data_eq_natDigits]
  intro hmem
  have := natDigits_all_digit n ' ' hmem
  cases this

/-- Splitting at the first occurrence of a character is unambiguous. -/
theorem first_occurrence_split {c : Char} :
    ∀ (a1 a2 b1 b2 : List Char), c ∉ a1 → c ∉ a2 →
      a1 ++ c :: b1 = a2 ++ c :: b2 → a1 = a2 ∧ b1 = b2 := by
  intro a1
  induction a1 with
  | nil =>
    intro a2 b1 b2 _ h2 heq
    cases a2 with
    | nil =>
      simp only [List.nil_append, List.cons.injEq] at heq
      exact ⟨rfl, heq.2⟩
    | cons x a2 =>
      simp only [List.nil_append, List.cons_append, List.cons.injEq] at heq
      exact absurd (heq.1 ▸ List.mem_cons_self x a2) h2
  | cons x a1 ih =>
    intro a2 b1 b2 h1 h2 heq
    cases a2 with
    | nil =>
      simp only [List.cons_append, List.nil_append, List.cons.injEq] at heq
      exact absurd (heq.1 ▸ List.mem_cons_self x a1) h1
    | cons y a2 =>
      simp only [List.cons_append, List.cons.injEq] at heq
      have h1t : c ∉ a1 := fun hm => h1 (List.mem_cons_of_mem x hm)
      have h2t : c ∉ a2 := fun hm => h2 (List.mem_cons_of_mem y hm)
      obtain ⟨ha, hb⟩ := ih a2 b1 b2 h1t h2t heq.2
      exact ⟨by rw [heq.1, ha], hb⟩

theorem makeWidgetInstanceKey_injective {n1 n2 : String} {v1 v2 : Nat}
    (h : makeWidgetInstanceKey n1 v1 = makeWidgetInstanceKey n2 v2) :
    n1 = n2 ∧ v1 = v2 := by
  unfold makeWidgetInstanceKey at h
  have hd : ("Display Name: ").data ++ n1.data ++ (" Version: ").data ++ (Nat.repr v1).data
      = ("Display Name: ").data ++ n2.data ++ (" Version: ").data ++ (Nat.repr v2).data := by
    have := congrArg String.data h
    simpa [String.data_append, List.append_assoc] using this
  rw [List.append_assoc, List.append_assoc, List.append_assoc, List.append_assoc] at hd
  have hd2 : n1.data ++ ((" Version: ").data ++ (Nat.repr v1).data)
      = n2.data ++ ((" Version: ").data ++ (Nat.repr v2).data) :=
    List.append_cancel_left hd
  have hrev := congrArg List.reverse hd2
  simp only [List.reverse_append] at hrev
  have hvd : ((" Version: ").data).reverse
      = ' ' :: [':', 'n', 'o', 'i', 's', 'r', 'e', 'V', ' '] := by decide
  rw [hvd] at hrev
  simp only [List.append_assoc, List.cons_append] at hrev
  have hs1 : ' ' ∉ ((Nat.repr v1).data).reverse := by
    rw [List.mem_reverse]
    exact repr_no_space v1
  have hs2 : ' ' ∉ ((Nat.repr v2).data).reverse := by
    rw [List.mem_reverse]
    exact repr_no_space v2
  obtain ⟨hr, hrest⟩ := first_occurrence_split _ _ _ _ hs1 hs2 hrev
  have hv : v1 = v2 := by
    apply natDigits_injective
    rw [← repr_data_eq_natDigits, ← repr_data_eq_natDigits]
    exact List.reverse_injective hr
  have hn : n1 = n2 := by
    simp only [List.nil_append, List.cons.injEq, true_and] at hrest
    have hdata := List.reverse_injective hrest
    cases n1
    cases n2
    simp only [] at hdata
    exact congrArg String.mk hdata
  exact ⟨hn, hv⟩

/-- Layout entry of a widget descriptor; only its repository id is consumed. -/
structure WidgetLayout where
  repositoryId : String
deriving DecidableEq, Repr

/-- Remote widget descriptor as fetched by getAllWidgetDescriptors and cached
in cache.widgetDescriptors. -/
structure WidgetDescriptor where
  repositoryId : String
  displayName : String
  version : Nat
  widgetType : String
  layouts : List WidgetLayout
deriving DecidableEq, Repr

/-- Remote stack descriptor as cached in cache.stackDescriptors. -/
structure StackDescriptor where
  repositoryId : String
  displayName : String
  version : Nat
  stackType : String
deriving DecidableEq, Repr

/-- Copy of the owning widget descriptor attached to each cached widget
instance by cacheWidgetInstances, with the instances list removed; only its
repository id is consumed afterwards. -/
structure WidgetDescRef where
  repositoryId : String
deriving DecidableEq, Repr

/-- Value of the currentLayout field of a widget instance. -/
structure CurrentLayout where
  repositoryId : String
  widgetLayoutDescriptor : WidgetLayout
deriving DecidableEq, Repr

/-- Widget instance as it appears inside a fetched descriptor group, before
the descriptor back reference is attached. -/
structure RawWidgetInstance where
  repositoryId : String
  displayName : String
  version : Nat
  currentLayout : Option CurrentLayout
deriving DecidableEq, Repr

/-- Widget instance record stored in cache.widgetInstances: the raw instance
plus the attached descriptor copy. -/
structure WidgetInstanceRec where
  repositoryId : String
  displayName : String
  version : Nat
  currentLayout : Option CurrentLayout
  descriptor : WidgetDescRef
deriving DecidableEq, Repr

/-- One item of a getAllWidgetInstances response: a widget descriptor
together with its instances. -/
structure WidgetInstancesGroup where
  repositoryId : String
  instances : List RawWidgetInstance
deriving DecidableEq, Repr

/-- Descriptor reference embedded in a fetched stack instance; only its
version is consumed, as the stack instance cache key. -/
structure StackDescRef where
  version : Nat
deriving DecidableEq, Repr

/-- Stack instance record as fetched and cached in cache.stackInstances. -/
structure StackInstanceRec where
  repositoryId : String
  name : String
  displayName : String
  descriptor : StackDescRef
deriving DecidableEq, Repr

/-- One item of a getAllStackInstances response. -/
structure StackInstancesGroup where
  instances : List StackInstanceRec
deriving DecidableEq, Repr

/-- Remote element record cached in the element maps, keyed by tag. -/
structure ElementRec where
  tag : String
  repositoryId : String
deriving DecidableEq, Repr

/-- Remote theme record; the source keys the theme cache on its name field,
which the specification data model calls the display name of the theme. -/
structure ThemeRec where
  name : String
  repositoryId : String
deriving DecidableEq, Repr

/-- The in memory cache object of metadata.js, holding the seven collections
loaded at session start. -/
structure Cache where
  widgetInstances : JsMap WidgetInstanceRec
  widgetDescriptors : List WidgetDescriptor
  widgetElements : JsMap ElementRec
  globalElements : JsMap ElementRec
  stackInstances : JsMap StackInstanceRec
  stackDescriptors : List StackDescriptor
  themes : JsMap ThemeRec
deriving DecidableEq, Repr

/-- Result of one endpoint fetch: the parsed items on success, or a transport
failure that rejects the enclosing promise. -/
def Fetch (α : Type) : Type := Except JsError α

/-- Loader for the theme cache, metadata.js lines 45 to 52: a map from theme
name to theme built from the custom themes of the target server. -/
def cacheThemes (fetch : Fetch (List ThemeRec)) : Except JsError (JsMap ThemeRec) :=
  match fetch with
  | .error e => .error e
  | .ok items => .ok (items.foldl (fun m t => mapSet m t.name t) [])

/-- Attaches the descriptor copy of its group to a fetched widget instance,
modelling the instance.descriptor assignment of cacheWidgetInstances. -/
def attachDescriptor (g : WidgetInstancesGroup) (i : RawWidgetInstance) : WidgetInstanceRec :=
  ⟨i.repositoryId, i.displayName, i.version, i.currentLayout, ⟨g.repositoryId⟩⟩

/-- Applies one fetched partition of widget instances to the widget instance
map, modelling the then callback of one getAllWidgetInstances request in
cacheWidgetInstances, metadata.js lines 76 to 111: the items field may be
absent, and every instance of every group is keyed by display name and
version. -/
def applyWidgetInstancesPartition (items : Option (List WidgetInstancesGroup))
    (m : JsMap WidgetInstanceRec) : JsMap WidgetInstanceRec :=
  match items with
  | none => m
  | some groups =>
    groups.foldl
      (fun m1 g =>
        g.instances.foldl
          (fun m2 i =>
            mapSet m2 (makeWidgetInstanceKey i.displayName i.version) (attachDescriptor g i))
          m1)
      m

/-- Key value pairs contributed by one fetched group, in application order. -/
def groupPairs (g : WidgetInstancesGroup) : List (String × WidgetInstanceRec) :=
  g.instances.map
    (fun i => (makeWidgetInstanceKey i.displayName i.version, attachDescriptor g i))

/-- Key value pairs of one partition, in the order the loader applies them. -/
def partitionPairs (items : Option (List WidgetInstancesGroup)) :
    List (String × WidgetInstanceRec) :=
  match items with
  | none => []
  | some groups => (groups.map groupPairs).flatten

/-- Loader for the widget instance cache, metadata.js lines 69 to 112. The
source runs the two partition fetches concurrently under Promise.all and each
then callback mutates the shared map when its response arrives, so the order
in which the two partitions reach the cache is the completion order of the two
requests, not a fixed one; the boolean source100First records that order. -/
def cacheWidgetInstances (source100First : Bool)
    (r100 r101 : Fetch (Option (List WidgetInstancesGroup))) :
    Except JsError (JsMap WidgetInstanceRec) :=
  match r100, r101 with
  | .error e, _ => .error e
  | _, .error e => .error e
  | .ok items100, .ok items101 =>
    .ok (if source100First
      then applyWidgetInstancesPartition items101 (applyWidgetInstancesPartition items100 [])
      else applyWidgetInstancesPartition items100 (applyWidgetInstancesPartition items101 []))

/-- Loader for the widget descriptor cache, metadata.js lines 118 to 124: the
items are kept as a plain list, matched later by linear scan. -/
def cacheWidgetDescriptors (fetch : Fetch (List WidgetDescriptor)) :
    Except JsError (List WidgetDescriptor) :=
  fetch

/-- Loader for the stack descriptor cache, metadata.js lines 130 to 136. -/
def cacheStackDescriptors (fetch : Fetch (List StackDescriptor)) :
    Except JsError (List StackDescriptor) :=
  fetch

/-- Loader shared by the widget and global element caches, metadata.js lines
161 to 172: the map starts empty and the elements endpoint is consulted only
when the server advertises the getElements capability; otherwise the fetch
argument is never inspected and the cache stays empty. -/
def cacheElements (serverSupportsGetElements : Bool)
    (fetch : Fetch (List ElementRec)) : Except JsError (JsMap ElementRec) :=
  if serverSupportsGetElements then
    match fetch with
    | .error e => .error e
    | .ok items => .ok (items.foldl (fun m e => mapSet m e.tag e) [])
  else
    .ok []

/-- Loader for the stack instance cache, metadata.js lines 189 to 198: all
instances of all stacks are collected into one list, then keyed by the
instance name and the version of its embedded descriptor. -/
def cacheStackInstances (fetch : Fetch (List StackInstancesGroup)) :
    Except JsError (JsMap StackInstanceRec) :=
  match fetch with
  | .error e => .error e
  | .ok items =>
    .ok (((items.foldl (fun acc g => acc ++ g.instances) []).foldl
      (fun m i => mapSet m (makeWidgetInstanceKey i.name i.descriptor.version) i) []))

/-- Cache initialization, metadata.js lines 27 to 39: Promise.all over the
seven loaders, producing a populated cache only when every loader succeeds
and the rejection of the first failing loader otherwise. -/
def initializeMetadata (source100First : Bool)
    (wi100 wi101 : Fetch (Option (List WidgetInstancesGroup)))
    (wd : Fetch (List WidgetDescriptor))
    (serverSupportsGetElements : Bool)
    (we ge : Fetch (List ElementRec))
    (si : Fetch (List StackInstancesGroup))
    (sd : Fetch (List StackDescriptor))
    (th : Fetch (List ThemeRec)) : Except JsError Cache :=
  match cacheWidgetInstances source100First wi100 wi101,
      cacheWidgetDescriptors wd,
      cacheElements serverSupportsGetElements we,
      cacheElements serverSupportsGetElements ge,
      cacheStackInstances si,
      cacheStackDescriptors sd,
      cacheThemes th with
  | .ok a, .ok b, .ok c, .ok d, .ok e, .ok f, .ok g => .ok ⟨a, b, c, d, e, f, g⟩
  | .error e, _, _, _, _, _, _ => .error e
  | _, .error e, _, _, _, _, _ => .error e
  | _, _, .error e, _, _, _, _ => .error e
  | _, _, _, .error e, _, _, _ => .error e
  | _, _, _, _, .error e, _, _ => .error e
  | _, _, _, _, _, .error e, _ => .error e
  | _, _, _, _, _, _, .error e => .error e

/-- Local tracking record read for constants.widgetMetadataJson. -/
structure WidgetMeta where
  displayName : String
  version : Nat
  widgetType : String
  elementized : Bool
deriving DecidableEq, Repr

/-- Local tracking record read for constants.widgetInstanceMetadataJson. -/
structure WidgetInstanceMeta where
  displayName : String
  version : Nat
deriving DecidableEq, Repr

/-- Local tracking record read for constants.stackMetadataJson. -/
structure StackMeta where
  displayName : String
  version : Nat
deriving DecidableEq, Repr

/-- Local tracking record read for constants.stackInstanceMetadataJson. The
matcher reads its name and version fields; the specification also lists a
display name among the key fields of such records. -/
structure StackInstanceMeta where
  name : String
  displayName : String
  version : Nat
deriving DecidableEq, Repr

/-- Local tracking record read for constants.elementMetadataJson. -/
structure ElementMeta where
  tag : String
  version : Nat
deriving DecidableEq, Repr

/-- Local tracking record read for constants.themeMetadataJson. -/
structure ThemeMeta where
  displayName : String
deriving DecidableEq, Repr

/-- The tracking metadata store on disk, one partial map per metadata file
type: the value of readMetadataFromDisk(path, type) for each asset path, with
none modelling a missing metadata file. The etag attached by the reader is
omitted because no matcher consults it. -/
structure Disk where
  widgetMeta : String → Option WidgetMeta
  widgetInstanceMeta : String → Option WidgetInstanceMeta
  stackMeta : String → Option StackMeta
  stackInstanceMeta : String → Option StackInstanceMeta
  elementMeta : String → Option ElementMeta
  themeMeta : String → Option ThemeMeta

/-- Successful result of a matcher: the log messages printed and the returned
reference record, none standing for the null of a clean no match. -/
def MatchResult (α : Type) : Type := Except JsError (List String × Option α)

/-- Reference returned by getMatchingWidget. -/
structure WidgetMatch where
  repositoryId : String
  widgetType : String
  elementized : Bool
deriving DecidableEq, Repr

/-- Reference returned by getMatchingStack. -/
structure StackMatch where
  repositoryId : String
  stackType : String
deriving DecidableEq, Repr

/-- Reference returned by getMatchingWidgetInstance; the two layout fields
are set only on the code paths that populate them. -/
structure WidgetInstanceMatch where
  repositoryId : String
  descriptorRepositoryId : String
  version : Nat
  displayName : String
  layoutInstanceId : Option String
  layoutDescriptorId : Option String
deriving DecidableEq, Repr

/-- Reference returned by getMatchingStackInstance. -/
structure StackInstanceMatch where
  repositoryId : String
  version : Nat
  displayName : String
deriving DecidableEq, Repr

/-- Reference returned by getMatchingTheme. -/
structure ThemeMatch where
  repositoryId : String
deriving DecidableEq, Repr

/-- Reference returned by getMatchingElement: the local element record itself
for a global element, or the tag with the owning widget repository id for an
element under a widget. -/
inductive ElementMatch where
  | localRecord (m : ElementMeta)
  | widgetScoped (tag : String) (widgetId : String)
deriving DecidableEq, Repr

/-- Linear scan of cache.widgetDescriptors with the arrow function of
getMatchingWidget, metadata.js lines 380 to 381: the callback dereferences
the local record on each element, so a null record faults on the first
element and an empty descriptor list returns no match without faulting. -/
def findWidgetByNameVersion (metadata : Option WidgetMeta) :
    List WidgetDescriptor → Except JsError (Option WidgetDescriptor)
  | [] => .ok none
  | w :: rest =>
    match metadata with
    | none => .error .typeError
    | some m =>
      if w.version = m.version ∧ w.displayName = m.displayName then .ok (some w)
      else findWidgetByNameVersion metadata rest

/-- Linear scan with the arrow function of widgetExistsOnTarget, metadata.js
lines 564 to 565, which compares version and widget type. -/
def findWidgetByTypeVersion (metadata : Option WidgetMeta) :
    List WidgetDescriptor → Except JsError (Option WidgetDescriptor)
  | [] => .ok none
  | w :: rest =>
    match metadata with
    | none => .error .typeError
    | some m =>
      if w.version = m.version ∧ w.widgetType = m.widgetType then .ok (some w)
      else findWidgetByTypeVersion metadata rest

/-- Linear scan of cache.stackDescriptors with the arrow function shared by
getMatchingStack (lines 418 to 419) and stackExistsOnTarget (lines 578 to
579), comparing version and display name. -/
def findStackByNameVersion (metadata : Option StackMeta) :
    List StackDescriptor → Except JsError (Option StackDescriptor)
  | [] => .ok none
  | s :: rest =>
    match metadata with
    | none => .error .typeError
    | some m =>
      if s.version = m.version ∧ s.displayName = m.displayName then .ok (some s)
      else findStackByNameVersion metadata rest

/-- Linear scan with the arrow function of the widget scoped branch of
getMatchingElement, metadata.js lines 497 to 498. The callback reads the
element record first and the widget record only when the version test
passes, because the JavaScript conjunction short circuits. -/
def findWidgetForElement (elementMetadata : Option ElementMeta)
    (widgetMetadata : Option WidgetMeta) :
    List WidgetDescriptor → Except JsError (Option WidgetDescriptor)
  | [] => .ok none
  | w :: rest =>
    match elementMetadata with
    | none => .error .typeError
    | some em =>
      if w.version = em.version then
        match widgetMetadata with
        | none => .error .typeError
        | some wm =>
          if w.widgetType = wm.widgetType then .ok (some w)
          else findWidgetForElement elementMetadata widgetMetadata rest
      else findWidgetForElement elementMetadata widgetMetadata rest

/-- Cache lookup helper of metadata.js lines 312 to 318: an absent local
record is answered with null rather than a fault, because of the explicit
guard at the top of the function. -/
def getCachedWidgetInstanceFromMetadata (c : Cache)
    (metadata : Option WidgetInstanceMeta) : Option WidgetInstanceRec :=
  match metadata with
  | none => none
  | some m => mapGet c.widgetInstances (makeWidgetInstanceKey m.displayName m.version)

/-- Matcher for a base widget, metadata.js lines 374 to 397. -/
def getMatchingWidget (d : Disk) (c : Cache) (path : String) :
    MatchResult WidgetMatch :=
  let metadata := d.widgetMeta path
  match findWidgetByNameVersion metadata c.widgetDescriptors with
  | .error e => .error e
  | .ok (some w) =>
    .ok (["info:matchingWidgetFound"],
      some ⟨w.repositoryId, w.widgetType, w.layouts.length ≠ 0⟩)
  | .ok none => .ok (["warn:noMatchingWidgetFound"], none)

/-- Matcher for a widget instance, metadata.js lines 324 to 368. When the
cached instance has no currentLayout yet, the widget record is consulted and
its elementized flag decides whether the first layout of the matching widget
descriptor supplies a best effort layout descriptor id; a missing widget
record, a missing matching descriptor or an empty layouts list each fault on
the corresponding dereference of the source. -/
def getMatchingWidgetInstance (d : Disk) (c : Cache) (path : String) :
    MatchResult WidgetInstanceMatch :=
  let widgetInstanceMetadata := d.widgetInstanceMeta path
  match getCachedWidgetInstanceFromMetadata c widgetInstanceMetadata with
  | some inst =>
    let base : WidgetInstanceMatch :=
      ⟨inst.repositoryId, inst.descriptor.repositoryId, inst.version,
        inst.displayName, none, none⟩
    match inst.currentLayout with
    | some cl =>
      .ok (["info:matchingWidgetInstanceFound"],
        some { base with
          layoutInstanceId := some cl.repositoryId,
          layoutDescriptorId := some cl.widgetLayoutDescriptor.repositoryId })
    | none =>
      match d.widgetMeta path with
      | none => .error .typeError
      | some wm =>
        if wm.elementized then
          match c.widgetDescriptors.find?
              (fun w => w.version == wm.version && w.displayName == wm.displayName) with
          | none => .error .typeError
          | some mw =>
            match mw.layouts with
            | [] => .error .typeError
            | l0 :: _ =>
              .ok (["info:matchingWidgetInstanceFound"],
                some { base with layoutDescriptorId := some l0.repositoryId })
        else
          .ok (["info:matchingWidgetInstanceFound"], some base)
  | none => .ok (["warn:noMatchingWidgetInstanceFound"], none)

/-- Matcher for a base stack, metadata.js lines 412 to 433. -/
def getMatchingStack (d : Disk) (c : Cache) (path : String) :
    MatchResult StackMatch :=
  let metadata := d.stackMeta path
  match findStackByNameVersion metadata c.stackDescriptors with
  | .error e => .error e
  | .ok (some s) => .ok (["info:matchingStackFound"], some ⟨s.repositoryId, s.stackType⟩)
  | .ok none => .ok (["warn:noMatchingStackFound"], none)

/-- Matcher for a stack instance, metadata.js lines 439 to 461, with the
lookup of getCachedStackInstanceFromMetadata (lines 404 to 406) inlined: the
cache key is built from the name and version of the local record, that helper
has no null guard so a missing record faults, and the returned reference
carries the local version together with the remote repository id and display
name. -/
def getMatchingStackInstance (d : Disk) (c : Cache) (path : String) :
    MatchResult StackInstanceMatch :=
  match d.stackInstanceMeta path with
  | none => .error .typeError
  | some m =>
    match mapGet c.stackInstances (makeWidgetInstanceKey m.name m.version) with
    | some inst =>
      .ok (["info:matchingStackInstanceFound"],
        some ⟨inst.repositoryId, m.version, inst.displayName⟩)
    | none => .ok (["warn:noMatchingStackInstanceFound"], none)

/-- File kinds the element matcher distinguishes; the subset of the putting
file type enumeration that its branches mention, plus a constructor standing
for every other classification. -/
inductive PuttingFileType where
  | GLOBAL_ELEMENT_TEMPLATE
  | GLOBAL_ELEMENT_JAVASCRIPT
  | GLOBAL_ELEMENT_METADATA
  | ELEMENT_TEMPLATE
  | ELEMENT_JAVASCRIPT
  | ELEMENT_METADATA
  | otherKind
deriving DecidableEq, Repr

/-- Matcher for an element, metadata.js lines 467 to 512. The classifier of
classifier.js is not part of the sources under review, so its verdict is an
explicit argument: the function from the path to the classification the
source obtains by calling classify(path). A global classification probes the
global element cache by tag and returns the local record itself; any other
classification treats the element as widget scoped and scans the widget
descriptors for the recorded version and the widget type of the owning
widget. -/
def getMatchingElement (classifyFn : String → Option PuttingFileType)
    (inTransferMode : Bool) (d : Disk) (c : Cache) (path : String) :
    MatchResult ElementMatch :=
  let elementMetadata := d.elementMeta path
  let fileType := classifyFn path
  if fileType = some .GLOBAL_ELEMENT_TEMPLATE ∨
      fileType = some .GLOBAL_ELEMENT_JAVASCRIPT ∨
      fileType = some .GLOBAL_ELEMENT_METADATA then
    match elementMetadata with
    | none => .error .typeError
    | some em =>
      match mapGet c.globalElements em.tag with
      | some _ =>
        .ok (if inTransferMode then ["info:matchingElementFound"] else [],
          some (.localRecord em))
      | none => .ok (["warn:noMatchingElementFound"], none)
  else
    match findWidgetForElement elementMetadata (d.widgetMeta path) c.widgetDescriptors with
    | .error e => .error e
    | .ok (some mw) =>
      match elementMetadata with
      | some em =>
        .ok (if inTransferMode then ["info:matchingElementFound"] else [],
          some (.widgetScoped em.tag mw.repositoryId))
      | none => .error .typeError
    | .ok none => .ok (["warn:noMatchingElementFound"], none)

/-- Matcher for a theme, metadata.js lines 519 to 539: a lookup of the local
display name in the theme cache; the found message is printed only in
transfer mode. -/
def getMatchingTheme (inTransferMode : Bool) (d : Disk) (c : Cache)
    (path : String) : MatchResult ThemeMatch :=
  match d.themeMeta path with
  | none => .error .typeError
  | some m =>
    match mapGet c.themes m.displayName with
    | some t =>
      .ok (if inTransferMode then ["info:matchingThemeFound"] else [],
        some ⟨t.repositoryId⟩)
    | none => .ok (["warn:noMatchingThemeFound"], none)

/-- Existence probe for a theme, metadata.js lines 546 to 552: the raw cache
lookup, truthy exactly on a hit. -/
def themeExistsOnTarget (d : Disk) (c : Cache) (path : String) :
    Except JsError (Option ThemeRec) :=
  match d.themeMeta path with
  | none => .error .typeError
  | some m => .ok (mapGet c.themes m.displayName)

/-- Existence probe for a base widget, metadata.js lines 558 to 566: a scan
of the widget descriptors by version and widget type. -/
def widgetExistsOnTarget (d : Disk) (c : Cache) (path : String) :
    Except JsError (Option WidgetDescriptor) :=
  findWidgetByTypeVersion (d.widgetMeta path) c.widgetDescriptors

/-- Existence probe for a base stack, metadata.js lines 572 to 580: a scan of
the stack descriptors by version and display name. -/
def stackExistsOnTarget (d : Disk) (c : Cache) (path : String) :
    Except JsError (Option StackDescriptor) :=
  findStackByNameVersion (d.stackMeta path) c.stackDescriptors

/-- Existence probe for an element, metadata.js lines 586 to 593: a lookup of
the recorded tag in the global element cache only. -/
def elementExistsOnTarget (d : Disk) (c : Cache) (path : String) :
    Except JsError (Option ElementRec) :=
  match d.elementMeta path with
  | none => .error .typeError
  | some m => .ok (mapGet c.globalElements m.tag)

/-- Existence probe for a widget instance, metadata.js lines 763 to 770,
through the guarded cache lookup helper. -/
def widgetInstanceExistsOnTarget (d : Disk) (c : Cache) (path : String) :
    Option WidgetInstanceRec :=
  getCachedWidgetInstanceFromMetadata c (d.widgetInstanceMeta path)

/-- Record of a metadata JSON file seen as a dictionary from field names to
opaque serialized values, the shape updateMetadata manipulates. JavaScript
object property assignment shares the replace or append semantics of mapSet. -/
def JRecord : Type := JsMap String

instance : DecidableEq JRecord := by
  unfold JRecord
  infer_instance

/-- Content handed to writeFile by updateMetadata: the merged record, or the
serialization of null when the merge target was a null read result. -/
inductive WriteContent where
  | record (r : JRecord)
  | nullLiteral
deriving DecidableEq

/-- Generic metadata reader, metadata.js lines 602 to 622, over an abstract
metadata path computation (the source delegates it to getMetadataPath, whose
path splitting helpers live outside the sources under review) and a disk
holding the parsed content of each existing metadata file: a missing file
yields null, an existing file yields its JSON with the etag attached from the
side channel unless the caller excludes it. -/
def readMetadataFromDisk (getMetadataPath : String → String → String)
    (disk : String → Option JRecord) (etagFor : String → String)
    (path fileType : String) (excludeEtag : Bool) : Option JRecord :=
  match disk (getMetadataPath path fileType) with
  | some json => some (if excludeEtag then json else mapSet json "etag" (etagFor path))
  | none => none

/-- Metadata update, metadata.js lines 696 to 708: reads the existing record
with the etag excluded, copies every supplied key onto it, then writes the
result back to the computed metadata path. The key loop faults on the first
assignment when the read produced null, so a null target together with a non
empty update object raises a TypeError before anything is written, while an
empty update object skips the loop and writes the serialization of null. -/
def updateMetadata (getMetadataPath : String → String → String)
    (disk : String → Option JRecord) (etagFor : String → String)
    (path fileType : String) (additionalMetadata : List (String × String)) :
    Except JsError (String × WriteContent) :=
  match readMetadataFromDisk getMetadataPath disk etagFor path fileType true with
  | none =>
    match additionalMetadata with
    | [] => .ok (getMetadataPath path fileType, .nullLiteral)
    | _ :: _ => .error .typeError
  | some existingMetadata =>
    .ok (getMetadataPath path fileType,
      .record (applyList additionalMetadata existingMetadata))

theorem applyList_append {α : Type} (a b : List (String × α)) (m : JsMap α) :
    applyList (a ++ b) m = applyList b (applyList a m) := by
  induction a generalizing m with
  | nil => rfl
  | cons hd tl ih =>
    simp only [List.cons_append, applyList]
    exact ih (mapSet m hd.1 hd.2)

theorem foldl_set_map_eq_applyList {α β : Type} (f : α → String) (g : α → β)
    (xs : List α) (m : JsMap β) :
    xs.foldl (fun acc x => mapSet acc (f x) (g x)) m
      = applyList (xs.map fun x => (f x, g x)) m := by
  induction xs generalizing m with
  | nil => rfl
  | cons hd tl ih => simp only [List.foldl_cons, List.map_cons, applyList, ih]

theorem applyPartition_eq_applyList (items : Option (List WidgetInstancesGroup))
    (m : JsMap WidgetInstanceRec) :
    applyWidgetInstancesPartition items m = applyList (partitionPairs items) m := by
  cases items with
  | none => rfl
  | some groups =>
    induction groups generalizing m with
    | nil => rfl
    | cons g gs ih =>
      simp only [applyWidgetInstancesPartition, List.foldl_cons] at ih ⊢
      rw [foldl_set_map_eq_applyList
        (fun i => makeWidgetInstanceKey i.displayName i.version)
        (fun i => attachDescriptor g i) g.instances m]
      rw [ih (applyList (g.instances.map fun i =>
        (makeWidgetInstanceKey i.displayName i.version, attachDescriptor g i)) m)]
      simp only [partitionPairs, List.map_cons, List.flatten_cons, applyList_append]
      rfl

theorem findWidgetByNameVersion_some (m : WidgetMeta) (l : List WidgetDescriptor) :
    findWidgetByNameVersion (some m) l =
      .ok (l.find? fun w => w.version == m.version && w.displayName == m.displayName) := by
  induction l with
  | nil => rfl
  | cons w rest ih =>
    rw [findWidgetByNameVersion, List.find?]
    by_cases h : w.version = m.version ∧ w.displayName = m.displayName
    · simp [h.1, h.2]
    · have hb : (w.version == m.version && w.displayName == m.displayName) = false := by
        rw [Bool.and_eq_false_iff]
        rcases Decidable.not_and_iff_or_not .. |>.mp h with h1 | h1
        · exact Or.inl (beq_eq_false_iff_ne .. |>.mpr h1)
        · exact Or.inr (beq_eq_false_iff_ne .. |>.mpr h1)
      rw [if_neg h, hb, ih]

theorem findStackByNameVersion_some (m : StackMeta) (l : List StackDescriptor) :
    findStackByNameVersion (some m) l =
      .ok (l.find? fun s => s.version == m.version && s.displayName == m.displayName) := by
  induction l with
  | nil => rfl
  | cons s rest ih =>
    rw [findStackByNameVersion, List.find?]
    by_cases h : s.version = m.version ∧ s.displayName = m.displayName
    · simp [h.1, h.2]
    · have hb : (s.version == m.version && s.displayName == m.displayName) = false := by
        rw [Bool.and_eq_false_iff]
        rcases Decidable.not_and_iff_or_not .. |>.mp h with h1 | h1
        · exact Or.inl (beq_eq_false_iff_ne .. |>.mpr h1)
        · exact Or.inr (beq_eq_false_iff_ne .. |>.mpr h1)
      rw [if_neg h, hb, ih]

theorem findWidgetByTypeVersion_some (m : WidgetMeta) (l : List WidgetDescriptor) :
    findWidgetByTypeVersion (some m) l =
      .ok (l.find? fun w => w.version == m.version && w.widgetType == m.widgetType) := by
  induction l with
  | nil => rfl
  | cons w rest ih =>
    rw [findWidgetByTypeVersion, List.find?]
    by_cases h : w.version = m.version ∧ w.widgetType = m.widgetType
    · simp [h.1, h.2]
    · have hb : (w.version == m.version && w.widgetType == m.widgetType) = false := by
        rw [Bool.and_eq_false_iff]
        rcases Decidable.not_and_iff_or_not .. |>.mp h with h1 | h1
        · exact Or.inl (beq_eq_false_iff_ne .. |>.mpr h1)
        · exact Or.inr (beq_eq_false_iff_ne .. |>.mpr h1)
      rw [if_neg h, hb, ih]

/-- Cache fixture for the widget matching scenario: one cached descriptor for
Cart Summary version 2 of widget type cart with no layouts. -/
def c1Cache : Cache :=
  ⟨[], [⟨"W1", "Cart Summary", 2, "cart", []⟩], [], [], [], [], []⟩

/-- Disk fixture for the widget matching scenario: the local widget record
holds display name Cart Summary and version 2. -/
def c1Disk : Disk :=
  ⟨fun _ => some ⟨"Cart Summary", 2, "cart", false⟩, fun _ => none, fun _ => none,
    fun _ => none, fun _ => none, fun _ => none⟩

/-- C1: when the local widget record is present, getMatchingWidget scans the
cached widget descriptors for one with equal version and equal display name
and, on a hit, returns its repository id and widget type together with an
elementized flag that is true exactly when the layouts list of the descriptor
is not empty; in particular the cached descriptor W1 for Cart Summary version
2 with no layouts is matched by local metadata Cart Summary version 2 as the
reference with repository id W1, widget type cart and elementized false. -/
theorem widget_matchRemote_correct (d : Disk) (c : Cache) (path : String)
    (m : WidgetMeta) (h : d.widgetMeta path = some m) :
    (getMatchingWidget d c path =
      match c.widgetDescriptors.find?
          (fun w => w.version == m.version && w.displayName == m.displayName) with
      | some w => .ok (["info:matchingWidgetFound"],
          some ⟨w.repositoryId, w.widgetType, decide (w.layouts ≠ [])⟩)
      | none => .ok (["warn:noMatchingWidgetFound"], none))
    ∧ getMatchingWidget c1Disk c1Cache "widget/Cart Summary" =
        .ok (["info:matchingWidgetFound"], some ⟨"W1", "cart", false⟩) := by
  constructor
  · simp only [getMatchingWidget, h, findWidgetByNameVersion_some]
    cases hf : c.widgetDescriptors.find?
        (fun w => w.version == m.version && w.displayName == m.displayName) with
    | none => rfl
    | some w =>
      obtain ⟨rid, dn, ver, wt, layouts⟩ := w
      cases layouts <;> rfl
  · rfl

/-- Witness for C1 at the scenario fixture. -/
theorem widget_matchRemote_correct_witness :
    c1Disk.widgetMeta "widget/Cart Summary" = some ⟨"Cart Summary", 2, "cart", false⟩
    ∧ getMatchingWidget c1Disk c1Cache "widget/Cart Summary" =
        .ok (["info:matchingWidgetFound"], some ⟨"W1", "cart", false⟩) :=
  ⟨rfl, (widget_matchRemote_correct c1Disk c1Cache "widget/Cart Summary"
    ⟨"Cart Summary", 2, "cart", false⟩ rfl).2⟩

/-- Disk fixture holding no tracking record of any kind. -/
def noneDisk : Disk :=
  ⟨fun _ => none, fun _ => none, fun _ => none, fun _ => none, fun _ => none,
    fun _ => none⟩

/-- Cache fixture with an empty collection for every family. -/
def emptyCache : Cache := ⟨[], [], [], [], [], [], []⟩

/-- Cache fixture holding one widget descriptor and one stack descriptor, so
that the descriptor scans of the matchers inspect the local record. -/
def probeCache : Cache :=
  ⟨[], [⟨"W1", "A", 1, "t", []⟩], [], [], [], [⟨"S1", "A", 1, "st"⟩], []⟩

/-- C2 counterexample: with no local tracking record on disk, the widget
instance matcher does not fail with a propagated error; it returns the
ordinary no match result with the not found warning, because of the explicit
null guard in getCachedWidgetInstanceFromMetadata. -/
theorem widgetInstance_failfast_counterexample :
    noneDisk.widgetInstanceMeta "widget/W/instances/I" = none
    ∧ getMatchingWidgetInstance noneDisk probeCache "widget/W/instances/I" =
        .ok (["warn:noMatchingWidgetInstanceFound"], none) :=
  ⟨rfl, rfl⟩

/-- C2 as amended: on an absent local record the stack instance and theme
matchers fail with a propagated TypeError, the widget and stack matchers fail
exactly when their descriptor list is not empty and report a clean no match
when it is empty, the element matcher fails on the global branch and, on the
widget scoped branch, exactly when the descriptor list is not empty, while
the widget instance matcher never fails and instead reports the ordinary no
match outcome. -/
theorem matchers_absent_record_behavior (d : Disk) (c : Cache) (p : String) :
    (d.widgetInstanceMeta p = none →
      getMatchingWidgetInstance d c p = .ok (["warn:noMatchingWidgetInstanceFound"], none))
    ∧ (d.stackInstanceMeta p = none →
      getMatchingStackInstance d c p = .error .typeError)
    ∧ (∀ tm : Bool, d.themeMeta p = none →
      getMatchingTheme tm d c p = .error .typeError)
    ∧ (d.widgetMeta p = none → c.widgetDescriptors ≠ [] →
      getMatchingWidget d c p = .error .typeError)
    ∧ (d.widgetMeta p = none → c.widgetDescriptors = [] →
      getMatchingWidget d c p = .ok (["warn:noMatchingWidgetFound"], none))
    ∧ (d.stackMeta p = none → c.stackDescriptors ≠ [] →
      getMatchingStack d c p = .error .typeError)
    ∧ (d.stackMeta p = none → c.stackDescriptors = [] →
      getMatchingStack d c p = .ok (["warn:noMatchingStackFound"], none))
    ∧ (∀ (cf : String → Option PuttingFileType) (tm : Bool),
      (cf p = some .GLOBAL_ELEMENT_TEMPLATE ∨ cf p = some .GLOBAL_ELEMENT_JAVASCRIPT ∨
        cf p = some .GLOBAL_ELEMENT_METADATA) →
      d.elementMeta p = none → getMatchingElement cf tm d c p = .error .typeError)
    ∧ (∀ (cf : String → Option PuttingFileType) (tm : Bool),
      ¬(cf p = some .GLOBAL_ELEMENT_TEMPLATE ∨ cf p = some .GLOBAL_ELEMENT_JAVASCRIPT ∨
        cf p = some .GLOBAL_ELEMENT_METADATA) →
      d.elementMeta p = none → c.widgetDescriptors ≠ [] →
      getMatchingElement cf tm d c p = .error .typeError)
    ∧ (∀ (cf : String → Option PuttingFileType) (tm : Bool),
      ¬(cf p = some .GLOBAL_ELEMENT_TEMPLATE ∨ cf p = some .GLOBAL_ELEMENT_JAVASCRIPT ∨
        cf p = some .GLOBAL_ELEMENT_METADATA) →
      d.elementMeta p = none → c.widgetDescriptors = [] →
      getMatchingElement cf tm d c p = .ok (["warn:noMatchingElementFound"], none)) := by
  refine ⟨?_, ?_, ?_, ?_, ?_, ?_, ?_, ?_, ?_, ?_⟩
  · intro h
    simp [getMatchingWidgetInstance, h, getCachedWidgetInstanceFromMetadata]
  · intro h
    simp [getMatchingStackInstance, h]
  · intro tm h
    simp [getMatchingTheme, h]
  · intro h hne
    cases hd : c.widgetDescriptors with
    | nil => exact absurd hd hne
    | cons w rest => simp [getMatchingWidget, h, hd, findWidgetByNameVersion]
  · intro h hempty
    simp [getMatchingWidget, h, hempty, findWidgetByNameVersion]
  · intro h hne
    cases hd : c.stackDescriptors with
    | nil => exact absurd hd hne
    | cons s rest => simp [getMatchingStack, h, hd, findStackByNameVersion]
  · intro h hempty
    simp [getMatchingStack, h, hempty, findStackByNameVersion]
  · intro cf tm hglob h
    simp only [getMatchingElement]
    rw [if_pos hglob, h]
  · intro cf tm hnotglob h hne
    simp only [getMatchingElement]
    rw [if_neg hnotglob]
    cases hd : c.widgetDescriptors with
    | nil => exact absurd hd hne
    | cons w rest => simp [h, findWidgetForElement]
  · intro cf tm hnotglob _h hempty
    simp only [getMatchingElement]
    rw [if_neg hnotglob, hempty]
    rfl

/-- Witness for the amended C2 at concrete fixtures exercising every branch. -/
theorem matchers_absent_record_behavior_witness :
    getMatchingWidgetInstance noneDisk probeCache "p" =
        .ok (["warn:noMatchingWidgetInstanceFound"], none)
    ∧ getMatchingStackInstance noneDisk probeCache "p" = .error .typeError
    ∧ getMatchingTheme true noneDisk probeCache "p" = .error .typeError
    ∧ getMatchingWidget noneDisk probeCache "p" = .error .typeError
    ∧ getMatchingWidget noneDisk emptyCache "p" =
        .ok (["warn:noMatchingWidgetFound"], none)
    ∧ getMatchingStack noneDisk probeCache "p" = .error .typeError
    ∧ getMatchingStack noneDisk emptyCache "p" =
        .ok (["warn:noMatchingStackFound"], none)
    ∧ getMatchingElement (fun _ => some .GLOBAL_ELEMENT_TEMPLATE) true noneDisk
        probeCache "p" = .error .typeError
    ∧ getMatchingElement (fun _ => some .ELEMENT_TEMPLATE) true noneDisk
        probeCache "p" = .error .typeError
    ∧ getMatchingElement (fun _ => some .ELEMENT_TEMPLATE) true noneDisk
        emptyCache "p" = .ok (["warn:noMatchingElementFound"], none) :=
  ⟨(matchers_absent_record_behavior noneDisk probeCache "p").1 rfl,
    (matchers_absent_record_behavior noneDisk probeCache "p").2.1 rfl,
    (matchers_absent_record_behavior noneDisk probeCache "p").2.2.1 true rfl,
    (matchers_absent_record_behavior noneDisk probeCache "p").2.2.2.1 rfl (by decide),
    (matchers_absent_record_behavior noneDisk emptyCache "p").2.2.2.2.1 rfl rfl,
    (matchers_absent_record_behavior noneDisk probeCache "p").2.2.2.2.2.1 rfl (by decide),
    (matchers_absent_record_behavior noneDisk emptyCache "p").2.2.2.2.2.2.1 rfl rfl,
    (matchers_absent_record_behavior noneDisk probeCache "p").2.2.2.2.2.2.2.1
      (fun _ => some .GLOBAL_ELEMENT_TEMPLATE) true (Or.inl rfl) rfl,
    (matchers_absent_record_behavior noneDisk probeCache "p").2.2.2.2.2.2.2.2.1
      (fun _ => some .ELEMENT_TEMPLATE) true (by simp) rfl (by decide),
    (matchers_absent_record_behavior noneDisk emptyCache "p").2.2.2.2.2.2.2.2.2
      (fun _ => some .ELEMENT_TEMPLATE) true (by simp) rfl rfl⟩

/-- Platform supplied partition fixture sharing the instance key Shared
version 1 with the user created partition fixture. -/
def c3Part100 : Option (List WidgetInstancesGroup) :=
  some [⟨"D100", [⟨"I100", "Shared", 1, none⟩]⟩]

/-- User created partition fixture sharing the instance key Shared version 1
with the platform supplied partition fixture. -/
def c3Part101 : Option (List WidgetInstancesGroup) :=
  some [⟨"D101", [⟨"I101", "Shared", 1, none⟩]⟩]

/-- C3 counterexample: with the two partitions sharing the key Shared version
1, the widget instance cache differs between the two completion orders, so it
is not deterministic and, when the platform supplied partition completes
last, the platform supplied record wins instead of the user created one. -/
theorem widgetInstance_cache_order_counterexample :
    cacheWidgetInstances true (.ok c3Part100) (.ok c3Part101) ≠
      cacheWidgetInstances false (.ok c3Part100) (.ok c3Part101)
    ∧ cacheWidgetInstances true (.ok c3Part100) (.ok c3Part101) =
        .ok [(makeWidgetInstanceKey "Shared" 1, ⟨"I101", "Shared", 1, none, ⟨"D101"⟩⟩)]
    ∧ cacheWidgetInstances false (.ok c3Part100) (.ok c3Part101) =
        .ok [(makeWidgetInstanceKey "Shared" 1, ⟨"I100", "Shared", 1, none, ⟨"D100"⟩⟩)] :=
  ⟨by decide, rfl, rfl⟩

theorem applyList_disjoint_pointwise {α : Type} (pa pb : List (String × α))
    (h : ∀ k, k ∈ pa.map Prod.fst → k ∉ pb.map Prod.fst) (k : String) :
    mapGet (applyList pb (applyList pa [])) k
      = mapGet (applyList pa (applyList pb [])) k := by
  by_cases ha : k ∈ pa.map Prod.fst
  · have hb : k ∉ pb.map Prod.fst := h k ha
    rw [mapGet_applyList_not_mem pb _ k hb]
    exact (mapGet_applyList_mem_indep pa (applyList pb []) [] k ha).symm
  · by_cases hb : k ∈ pb.map Prod.fst
    · rw [mapGet_applyList_not_mem pa (applyList pb []) k ha]
      exact mapGet_applyList_mem_indep pb (applyList pa []) [] k hb
    · rw [mapGet_applyList_not_mem pb (applyList pa []) k hb,
        mapGet_applyList_not_mem pa ([] : JsMap α) k ha,
        mapGet_applyList_not_mem pa (applyList pb []) k ha,
        mapGet_applyList_not_mem pb ([] : JsMap α) k hb]

/-- C3 as amended: the cache produced by the widget instance loader depends
on the completion order of the two partition fetches, the partition applied
last winning on shared keys; when the two partitions share no instance key
the lookup behavior of the result is independent of the completion order and
agrees with applying the platform supplied partition first and the user
created partition second. -/
theorem widgetInstance_cache_order_independent_when_disjoint
    (a b : Option (List WidgetInstancesGroup)) (o1 o2 : Bool)
    (hdisj : ∀ k, k ∈ (partitionPairs a).map Prod.fst →
      k ∉ (partitionPairs b).map Prod.fst) :
    ∃ r1 r2, cacheWidgetInstances o1 (.ok a) (.ok b) = .ok r1
      ∧ cacheWidgetInstances o2 (.ok a) (.ok b) = .ok r2
      ∧ ∀ k, mapGet r1 k = mapGet r2 k
        ∧ mapGet r1 k = mapGet (applyWidgetInstancesPartition b
            (applyWidgetInstancesPartition a [])) k := by
  have key : ∀ k, mapGet (applyWidgetInstancesPartition a
        (applyWidgetInstancesPartition b [])) k
      = mapGet (applyWidgetInstancesPartition b
        (applyWidgetInstancesPartition a [])) k := by
    intro k
    simp only [applyPartition_eq_applyList]
    exact (applyList_disjoint_pointwise (partitionPairs a) (partitionPairs b) hdisj k).symm
  cases o1 <;> cases o2
  · exact ⟨_, _, rfl, rfl, fun k => ⟨rfl, key k⟩⟩
  · exact ⟨_, _, rfl, rfl, fun k => ⟨key k, key k⟩⟩
  · exact ⟨_, _, rfl, rfl, fun k => ⟨(key k).symm, rfl⟩⟩
  · exact ⟨_, _, rfl, rfl, fun k => ⟨rfl, rfl⟩⟩

/-- Partition fixture disjoint from c3DisjointB: only the key Alpha 1. -/
def c3DisjointA : Option (List WidgetInstancesGroup) :=
  some [⟨"DA", [⟨"IA", "Alpha", 1, none⟩]⟩]

/-- Partition fixture disjoint from c3DisjointA: only the key Beta 1. -/
def c3DisjointB : Option (List WidgetInstancesGroup) :=
  some [⟨"DB", [⟨"IB", "Beta", 1, none⟩]⟩]

/-- Witness for the amended C3 on disjoint concrete partitions. -/
theorem widgetInstance_cache_order_independent_witness :
    ∃ r1 r2, cacheWidgetInstances true (.ok c3DisjointA) (.ok c3DisjointB) = .ok r1
      ∧ cacheWidgetInstances false (.ok c3DisjointA) (.ok c3DisjointB) = .ok r2
      ∧ ∀ k, mapGet r1 k = mapGet r2 k
        ∧ mapGet r1 k = mapGet (applyWidgetInstancesPartition c3DisjointB
            (applyWidgetInstancesPartition c3DisjointA [])) k :=
  widgetInstance_cache_order_independent_when_disjoint c3DisjointA c3DisjointB
    true false (by decide)

/-- Cache fixture for C4: one descriptor whose display name matches the local
widget record but whose widget type does not. -/
def c4Cache : Cache :=
  ⟨[], [⟨"W1", "A", 1, "t1", []⟩], [], [], [], [], []⟩

/-- Disk fixture for C4: the local widget record carries widget type OTHER,
unlike the cached descriptor of the same name and version. -/
def c4Disk : Disk :=
  ⟨fun _ => some ⟨"A", 1, "OTHER", false⟩, fun _ => none, fun _ => none,
    fun _ => none, fun _ => none, fun _ => none⟩

/-- Disk fixture for the element half of C4: a widget scoped element whose
owning widget record agrees with the cached descriptor. -/
def c4eDisk : Disk :=
  ⟨fun _ => some ⟨"A", 1, "t1", false⟩, fun _ => none, fun _ => none,
    fun _ => none, fun _ => some ⟨"tg", 1⟩, fun _ => none⟩

/-- C4 counterexample: the widget matcher finds a remote match while the
widget existence probe reports none, because the probe compares the widget
type where the matcher compares the display name; and the element matcher
finds a widget scoped match while the element existence probe reports none,
because the probe consults only the global element cache. -/
theorem exists_predicate_vs_matcher_counterexample :
    getMatchingWidget c4Disk c4Cache "widget/A" =
      .ok (["info:matchingWidgetFound"], some ⟨"W1", "t1", false⟩)
    ∧ widgetExistsOnTarget c4Disk c4Cache "widget/A" = .ok none
    ∧ getMatchingElement (fun _ => some .ELEMENT_TEMPLATE) true c4eDisk c4Cache
        "widget/A/element/E" =
      .ok (["info:matchingElementFound"], some (.widgetScoped "tg" "W1"))
    ∧ elementExistsOnTarget c4eDisk c4Cache "widget/A/element/E" = .ok none :=
  ⟨rfl, rfl, rfl, rfl⟩

theorem getMatchingWidgetInstance_hit_ne (d : Disk) (c : Cache) (p : String)
    (inst : WidgetInstanceRec)
    (hinst : getCachedWidgetInstanceFromMetadata c (d.widgetInstanceMeta p) = some inst) :
    getMatchingWidgetInstance d c p ≠
      .ok (["warn:noMatchingWidgetInstanceFound"], none) := by
  intro hcontra
  simp only [getMatchingWidgetInstance, hinst] at hcontra
  split at hcontra
  · exact Option.noConfusion (congrArg Prod.snd (Except.ok.inj hcontra))
  · split at hcontra
    · exact Except.noConfusion hcontra
    · split at hcontra
      · split at hcontra
        · exact Except.noConfusion hcontra
        · split at hcontra
          · exact Except.noConfusion hcontra
          · exact Option.noConfusion (congrArg Prod.snd (Except.ok.inj hcontra))
      · exact Option.noConfusion (congrArg Prod.snd (Except.ok.inj hcontra))

/-- C4 as amended: the stack, theme and widget instance existence probes
agree with their matchers, a probe hit corresponding exactly to a matcher
match; the widget existence probe instead scans the descriptors by version
and widget type, unlike the widget matcher which scans by version and display
name, and the element existence probe consults only the global element cache
tag lookup, so those two can disagree with their matchers. -/
theorem exists_predicates_characterization (d : Disk) (c : Cache) (p : String) :
    ((∃ log r, getMatchingStack d c p = .ok (log, some r)) ↔
      (∃ s, stackExistsOnTarget d c p = .ok (some s)))
    ∧ (∀ tm : Bool, (∃ log r, getMatchingTheme tm d c p = .ok (log, some r)) ↔
      (∃ t, themeExistsOnTarget d c p = .ok (some t)))
    ∧ (widgetInstanceExistsOnTarget d c p = none ↔
      getMatchingWidgetInstance d c p = .ok (["warn:noMatchingWidgetInstanceFound"], none))
    ∧ (∀ m, d.widgetMeta p = some m → widgetExistsOnTarget d c p =
      .ok (c.widgetDescriptors.find?
        fun w => w.version == m.version && w.widgetType == m.widgetType))
    ∧ (∀ m, d.elementMeta p = some m → elementExistsOnTarget d c p =
      .ok (mapGet c.globalElements m.tag)) := by
  refine ⟨?_, ?_, ?_, ?_, ?_⟩
  · simp only [getMatchingStack, stackExistsOnTarget]
    cases hf : findStackByNameVersion (d.stackMeta p) c.stackDescriptors with
    | error e => simp
    | ok o =>
      cases o with
      | some s => exact iff_of_true ⟨_, _, rfl⟩ ⟨s, rfl⟩
      | none =>
        refine iff_of_false ?_ ?_
        · rintro ⟨log, r, hr⟩
          exact Option.noConfusion (congrArg Prod.snd (Except.ok.inj hr))
        · rintro ⟨s, hs⟩
          exact Option.noConfusion (Except.ok.inj hs)
  · intro tm
    cases hm : d.themeMeta p with
    | none =>
      refine iff_of_false ?_ ?_
      · rintro ⟨log, r, hr⟩
        simp only [getMatchingTheme, hm] at hr
        exact Except.noConfusion hr
      · rintro ⟨t, ht⟩
        simp only [themeExistsOnTarget, hm] at ht
        exact Except.noConfusion ht
    | some m =>
      cases hg : mapGet c.themes m.displayName with
      | none =>
        refine iff_of_false ?_ ?_
        · rintro ⟨log, r, hr⟩
          simp only [getMatchingTheme, hm, hg] at hr
          exact Option.noConfusion (congrArg Prod.snd (Except.ok.inj hr))
        · rintro ⟨t, ht⟩
          simp only [themeExistsOnTarget, hm, hg] at ht
          exact Option.noConfusion (Except.ok.inj ht)
      | some t =>
        refine iff_of_true ⟨(if tm then ["info:matchingThemeFound"] else []),
          ⟨t.repositoryId⟩, ?_⟩ ⟨t, ?_⟩
        · simp only [getMatchingTheme, hm, hg]
        · simp only [themeExistsOnTarget, hm, hg]
  · simp only [widgetInstanceExistsOnTarget]
    cases hinst : getCachedWidgetInstanceFromMetadata c (d.widgetInstanceMeta p) with
    | none => exact iff_of_true rfl (by simp [getMatchingWidgetInstance, hinst])
    | some inst =>
      exact iff_of_false (by simp) (getMatchingWidgetInstance_hit_ne d c p inst hinst)
  · intro m h
    simp only [widgetExistsOnTarget, h, findWidgetByTypeVersion_some]
  · intro m h
    simp only [elementExistsOnTarget, h]

/-- Witness for the amended C4 at the concrete fixtures. -/
theorem exists_predicates_characterization_witness :
    widgetExistsOnTarget c4Disk c4Cache "widget/A" =
      .ok (c4Cache.widgetDescriptors.find?
        fun w => w.version == (1 : Nat) && w.widgetType == "OTHER")
    ∧ elementExistsOnTarget c4eDisk c4Cache "widget/A/element/E" =
      .ok (mapGet c4Cache.globalElements "tg") :=
  ⟨(exists_predicates_characterization c4Disk c4Cache "widget/A").2.2.2.1
      ⟨"A", 1, "OTHER", false⟩ rfl,
    (exists_predicates_characterization c4eDisk c4Cache "widget/A/element/E").2.2.2.2
      ⟨"tg", 1⟩ rfl⟩

/-- Remote stack instance fixture for C5, named A with descriptor version 1
but displaying the name Remote Name. -/
def c5Inst : StackInstanceRec := ⟨"SI1", "A", "Remote Name", ⟨1⟩⟩

/-- Cache fixture for C5 holding c5Inst under the key built from its name. -/
def c5Cache : Cache :=
  ⟨[], [], [], [], [(makeWidgetInstanceKey "A" 1, c5Inst)], [], []⟩

/-- Disk fixture for C5: the local stack instance record has name A but
display name B. -/
def c5Disk : Disk :=
  ⟨fun _ => none, fun _ => none, fun _ => none, fun _ => some ⟨"A", "B", 1⟩,
    fun _ => none, fun _ => none⟩

/-- C5 counterexample: the stack instance matcher matches through the key
built from the name field of the local record, not its display name as the
widget instance rule would, and its hit carries no descriptor repository id
and no layout identifiers; here the lookup by display name B would miss, yet
the matcher returns a hit found under name A. -/
theorem stackInstance_matcher_counterexample :
    getMatchingStackInstance c5Disk c5Cache "stack/A/instances/I" =
      .ok (["info:matchingStackInstanceFound"], some ⟨"SI1", 1, "Remote Name"⟩)
    ∧ mapGet c5Cache.stackInstances (makeWidgetInstanceKey "B" 1) = none :=
  ⟨rfl, rfl⟩

/-- C5 as amended: the stack matcher mirrors the widget matcher with the
stack type in place of the widget type but omits the elementized flag; the
stack instance matcher looks up the stack instance cache by the name and
version of the local record, the cache itself being keyed by the remote
instance name and the version of its embedded descriptor, and a hit returns
only the remote repository id, the local version and the remote display
name, with no descriptor repository id and no layout handling. -/
theorem stack_matchers_characterization (d : Disk) (c : Cache) (p : String) :
    (∀ m, d.stackInstanceMeta p = some m → getMatchingStackInstance d c p =
      (match mapGet c.stackInstances (makeWidgetInstanceKey m.name m.version) with
       | some i => .ok (["info:matchingStackInstanceFound"],
           some ⟨i.repositoryId, m.version, i.displayName⟩)
       | none => .ok (["warn:noMatchingStackInstanceFound"], none)))
    ∧ (∀ m, d.stackMeta p = some m → getMatchingStack d c p =
      (match c.stackDescriptors.find?
          (fun s => s.version == m.version && s.displayName == m.displayName) with
       | some s => .ok (["info:matchingStackFound"], some ⟨s.repositoryId, s.stackType⟩)
       | none => .ok (["warn:noMatchingStackFound"], none)))
    ∧ (∀ items : List StackInstancesGroup, cacheStackInstances (.ok items) =
      .ok (applyList ((items.foldl (fun acc g => acc ++ g.instances) []).map
        (fun i => (makeWidgetInstanceKey i.name i.descriptor.version, i))) [])) := by
  refine ⟨?_, ?_, ?_⟩
  · intro m h
    simp only [getMatchingStackInstance, h]
  · intro m h
    simp only [getMatchingStack, h, findStackByNameVersion_some]
    cases hf : c.stackDescriptors.find?
        (fun s => s.version == m.version && s.displayName == m.displayName) with
    | none => rfl
    | some s => rfl
  · intro items
    simp only [cacheStackInstances]
    rw [foldl_set_map_eq_applyList
      (fun i : StackInstanceRec => makeWidgetInstanceKey i.name i.descriptor.version)
      (fun i => i) (items.foldl (fun acc g => acc ++ g.instances) [])
      ([] : JsMap StackInstanceRec)]

/-- Witness for the amended C5 at the concrete fixtures. -/
theorem stack_matchers_characterization_witness :
    getMatchingStackInstance c5Disk c5Cache "stack/A/instances/I" =
      .ok (["info:matchingStackInstanceFound"], some ⟨"SI1", 1, "Remote Name"⟩)
    ∧ cacheStackInstances (.ok [⟨[c5Inst]⟩]) =
      .ok [(makeWidgetInstanceKey "A" 1, c5Inst)] :=
  ⟨((stack_matchers_characterization c5Disk c5Cache "stack/A/instances/I").1
      ⟨"A", "B", 1⟩ rfl).trans rfl,
    ((stack_matchers_characterization c5Disk c5Cache "stack/A/instances/I").2.2
      [⟨[c5Inst]⟩]).trans rfl⟩

/-- C6: the instance cache key is injective, two instances with equal display
name and version collapse to a single cache entry in which the last
populated record wins, and two instances differing in display name or
version occupy distinct entries under distinct keys. -/
theorem instanceKey_injective_and_cache_collapse :
    (∀ (n1 : String) (v1 : Nat) (n2 : String) (v2 : Nat),
      makeWidgetInstanceKey n1 v1 = makeWidgetInstanceKey n2 v2 ↔ (n1 = n2 ∧ v1 = v2))
    ∧ (∀ (rid : String) (i1 i2 : RawWidgetInstance),
      i1.displayName = i2.displayName → i1.version = i2.version →
      applyWidgetInstancesPartition (some [⟨rid, [i1, i2]⟩]) [] =
        [(makeWidgetInstanceKey i2.displayName i2.version,
          attachDescriptor ⟨rid, [i1, i2]⟩ i2)])
    ∧ (∀ (rid : String) (i1 i2 : RawWidgetInstance),
      i1.displayName ≠ i2.displayName ∨ i1.version ≠ i2.version →
      makeWidgetInstanceKey i1.displayName i1.version ≠
          makeWidgetInstanceKey i2.displayName i2.version
        ∧ mapGet (applyWidgetInstancesPartition (some [⟨rid, [i1, i2]⟩]) [])
            (makeWidgetInstanceKey i1.displayName i1.version) =
          some (attachDescriptor ⟨rid, [i1, i2]⟩ i1)
        ∧ mapGet (applyWidgetInstancesPartition (some [⟨rid, [i1, i2]⟩]) [])
            (makeWidgetInstanceKey i2.displayName i2.version) =
          some (attachDescriptor ⟨rid, [i1, i2]⟩ i2)) := by
  refine ⟨?_, ?_, ?_⟩
  · intro n1 v1 n2 v2
    constructor
    · exact makeWidgetInstanceKey_injective
    · rintro ⟨rfl, rfl⟩
      rfl
  · intro rid i1 i2 hn hv
    simp only [applyWidgetInstancesPartition, List.foldl_cons, List.foldl_nil]
    rw [hn, hv, mapSet_mapSet_self]
    rfl
  · intro rid i1 i2 hne
    have hkne : makeWidgetInstanceKey i1.displayName i1.version ≠
        makeWidgetInstanceKey i2.displayName i2.version := by
      intro he
      rcases makeWidgetInstanceKey_injective he with ⟨h1, h2⟩
      rcases hne with hh | hh
      · exact hh h1
      · exact hh h2
    refine ⟨hkne, ?_, ?_⟩
    · simp only [applyWidgetInstancesPartition, List.foldl_cons, List.foldl_nil]
      rw [mapGet_mapSet_ne _ _ (Ne.symm hkne), mapGet_mapSet_self]
    · simp only [applyWidgetInstancesPartition, List.foldl_cons, List.foldl_nil]
      rw [mapGet_mapSet_self]

/-- Witness for C6 at concrete instances. -/
theorem instanceKey_injective_and_cache_collapse_witness :
    makeWidgetInstanceKey "A" 1 ≠ makeWidgetInstanceKey "A" 2
    ∧ applyWidgetInstancesPartition
        (some [⟨"D", [⟨"I1", "A", 1, none⟩, ⟨"I2", "A", 1, none⟩]⟩]) [] =
      [(makeWidgetInstanceKey "A" 1, ⟨"I2", "A", 1, none, ⟨"D"⟩⟩)]
    ∧ mapGet (applyWidgetInstancesPartition
        (some [⟨"D", [⟨"I1", "A", 1, none⟩, ⟨"I3", "B", 2, none⟩]⟩]) [])
        (makeWidgetInstanceKey "A" 1) = some ⟨"I1", "A", 1, none, ⟨"D"⟩⟩ := by
  refine ⟨?_, ?_, ?_⟩
  · intro he
    have := (instanceKey_injective_and_cache_collapse.1 "A" 1 "A" 2).mp he
    exact absurd this.2 (by decide)
  · exact instanceKey_injective_and_cache_collapse.2.1 "D"
      ⟨"I1", "A", 1, none⟩ ⟨"I2", "A", 1, none⟩ rfl rfl
  · exact (instanceKey_injective_and_cache_collapse.2.2 "D"
      ⟨"I1", "A", 1, none⟩ ⟨"I3", "B", 2, none⟩ (Or.inl (by decide))).2.1

/-- C7: cache initialization succeeds exactly when all seven collection
loaders succeed; the failure of any one loader makes the whole
initialization an aggregate failure producing no cache value at all, so no
partial cache exists for matching, and each fetch result is consumed exactly
once with no retry. -/
theorem metadata_cache_all_or_nothing (o : Bool)
    (wi100 wi101 : Fetch (Option (List WidgetInstancesGroup)))
    (wd : Fetch (List WidgetDescriptor)) (sup : Bool)
    (we ge : Fetch (List ElementRec)) (si : Fetch (List StackInstancesGroup))
    (sd : Fetch (List StackDescriptor)) (th : Fetch (List ThemeRec)) :
    (∃ cache, initializeMetadata o wi100 wi101 wd sup we ge si sd th = .ok cache) ↔
      ((∃ x, cacheWidgetInstances o wi100 wi101 = .ok x)
      ∧ (∃ x, cacheWidgetDescriptors wd = .ok x)
      ∧ (∃ x, cacheElements sup we = .ok x)
      ∧ (∃ x, cacheElements sup ge = .ok x)
      ∧ (∃ x, cacheStackInstances si = .ok x)
      ∧ (∃ x, cacheStackDescriptors sd = .ok x)
      ∧ (∃ x, cacheThemes th = .ok x)) := by
  simp only [initializeMetadata]
  cases cacheWidgetInstances o wi100 wi101 <;>
    cases cacheWidgetDescriptors wd <;>
    cases cacheElements sup we <;>
    cases cacheElements sup ge <;>
    cases cacheStackInstances si <;>
    cases cacheStackDescriptors sd <;>
    cases cacheThemes th <;>
    simp

/-- Classifier fixture answering the global element template kind for every
path, standing for classify on a global element path. -/
def c8Classify : String → Option PuttingFileType :=
  fun _ => some .GLOBAL_ELEMENT_TEMPLATE

/-- Disk fixture for C8 holding one local element record with tag tg. -/
def c8Disk : Disk :=
  ⟨fun _ => none, fun _ => none, fun _ => none, fun _ => none,
    fun _ => some ⟨"tg", 1⟩, fun _ => none⟩

/-- C8 counterexample: initializing against a server without the getElements
capability and initializing against a supporting server that simply has no
elements produce the very same cache, and element matching on it reports the
same no match warning in both worlds, so the matcher exposes no unsupported
outcome distinguishable from a genuine zero result lookup. -/
theorem element_unsupported_indistinguishable_counterexample :
    initializeMetadata true (.ok none) (.ok none) (.ok []) false
        (.ok [⟨"tg", "E1"⟩]) (.ok [⟨"tg", "E1"⟩]) (.ok []) (.ok []) (.ok []) =
      .ok emptyCache
    ∧ initializeMetadata true (.ok none) (.ok none) (.ok []) true
        (.ok []) (.ok []) (.ok []) (.ok []) (.ok []) = .ok emptyCache
    ∧ getMatchingElement c8Classify false c8Disk emptyCache "element/E" =
        .ok (["warn:noMatchingElementFound"], none) :=
  ⟨rfl, rfl, rfl⟩

/-- C8 as amended: without the getElements capability the element caches are
left empty and the fetch result is never inspected, so no element fetch is
performed; element matching against an empty or missing tag then reports the
ordinary no match warning, identical to a genuine zero result lookup on a
supporting server, and only the capability flag itself distinguishes the two
situations. -/
theorem element_capability_unsupported_behavior :
    (∀ f1 f2 : Fetch (List ElementRec),
      cacheElements false f1 = .ok [] ∧ cacheElements false f1 = cacheElements false f2)
    ∧ (∀ (cf : String → Option PuttingFileType) (tm : Bool) (d : Disk) (c : Cache)
        (p : String) (em : ElementMeta),
      (cf p = some .GLOBAL_ELEMENT_TEMPLATE ∨ cf p = some .GLOBAL_ELEMENT_JAVASCRIPT ∨
        cf p = some .GLOBAL_ELEMENT_METADATA) →
      d.elementMeta p = some em → mapGet c.globalElements em.tag = none →
      getMatchingElement cf tm d c p = .ok (["warn:noMatchingElementFound"], none)) := by
  constructor
  · intro f1 f2
    exact ⟨rfl, rfl⟩
  · intro cf tm d c p em hglob hem hget
    simp only [getMatchingElement]
    rw [if_pos hglob]
    simp only [hem, hget]

/-- Witness for the amended C8 at the concrete fixtures. -/
theorem element_capability_unsupported_behavior_witness :
    cacheElements false (.ok [⟨"tg", "E1"⟩]) = .ok []
    ∧ cacheElements false (.ok [⟨"tg", "E1"⟩]) = cacheElements false (.error .typeError)
    ∧ getMatchingElement c8Classify true c8Disk emptyCache "element/E" =
        .ok (["warn:noMatchingElementFound"], none) :=
  ⟨(element_capability_unsupported_behavior.1 (.ok [⟨"tg", "E1"⟩]) (.error .typeError)).1,
    (element_capability_unsupported_behavior.1 (.ok [⟨"tg", "E1"⟩]) (.error .typeError)).2,
    element_capability_unsupported_behavior.2 c8Classify true c8Disk emptyCache
      "element/E" ⟨"tg", 1⟩ (Or.inl rfl) rfl rfl⟩

/-- Metadata path fixture for C9. -/
def c9mp : String → String → String := fun p t => p ++ "/" ++ t

/-- Disk fixture for C9 holding no metadata file at all. -/
def c9emptyDisk : String → Option JRecord := fun _ => none

/-- C9 counterexample: updating a path whose metadata file does not exist
does not always fail without writing; with an empty update object the key
loop never faults and the serialization of the null read result is written
to the computed metadata path, creating a file. -/
theorem updateMetadata_null_write_counterexample :
    c9emptyDisk (c9mp "widget/W" "widgetMetadata.json") = none
    ∧ updateMetadata c9mp c9emptyDisk (fun _ => "etag0") "widget/W"
        "widgetMetadata.json" [] =
      .ok (c9mp "widget/W" "widgetMetadata.json", .nullLiteral) :=
  ⟨rfl, rfl⟩

/-- C9 as amended: on a missing record updateMetadata fails before writing
whenever the supplied fields are non empty, while an empty update object
writes the serialized null to the computed path; on an existing record it
writes back to the same computed path the record with exactly the supplied
keys overwritten, every untouched field preserved, and the read that feeds
the merge excludes the etag, making the result independent of the etag side
channel. -/
theorem updateMetadata_merge_spec (mp : String → String → String)
    (disk : String → Option JRecord) (etagFor : String → String)
    (p t : String) (add : List (String × String)) :
    (disk (mp p t) = none → add ≠ [] →
      updateMetadata mp disk etagFor p t add = .error .typeError)
    ∧ (disk (mp p t) = none →
      updateMetadata mp disk etagFor p t [] = .ok (mp p t, .nullLiteral))
    ∧ (∀ r, disk (mp p t) = some r →
      updateMetadata mp disk etagFor p t add = .ok (mp p t, .record (applyList add r))
      ∧ (∀ k, k ∉ add.map Prod.fst → mapGet (applyList add r) k = mapGet r k)
      ∧ (∀ k v, (add.map Prod.fst).Nodup → (k, v) ∈ add →
        mapGet (applyList add r) k = some v))
    ∧ (∀ etagFor2 : String → String,
      updateMetadata mp disk etagFor p t add = updateMetadata mp disk etagFor2 p t add) := by
  refine ⟨?_, ?_, ?_, ?_⟩
  · intro hnone hne
    cases add with
    | nil => exact absurd rfl hne
    | cons hd tl => simp [updateMetadata, readMetadataFromDisk, hnone]
  · intro hnone
    simp [updateMetadata, readMetadataFromDisk, hnone]
  · intro r hr
    refine ⟨?_, ?_, ?_⟩
    · simp [updateMetadata, readMetadataFromDisk, hr]
    · intro k hk
      exact mapGet_applyList_not_mem add r k hk
    · intro k v hnd hmem
      exact mapGet_applyList_nodup_mem add r k v hnd hmem
  · intro etagFor2
    cases disk (mp p t) <;> rfl

/-- Record fixture for the C9 witness. -/
def c9Record : JRecord := [("displayName", "Cart"), ("version", "2")]

/-- Disk fixture for the C9 witness holding c9Record everywhere. -/
def c9fullDisk : String → Option JRecord := fun _ => some c9Record

/-- Witness for the amended C9 at concrete inputs. -/
theorem updateMetadata_merge_spec_witness :
    updateMetadata c9mp c9emptyDisk (fun _ => "e") "w" "t" [("a", "1")] = .error .typeError
    ∧ updateMetadata c9mp c9emptyDisk (fun _ => "e") "w" "t" [] = .ok (c9mp "w" "t", .nullLiteral)
    ∧ updateMetadata c9mp c9fullDisk (fun _ => "e") "w" "t" [("version", "3")] =
        .ok (c9mp "w" "t", .record (applyList [("version", "3")] c9Record))
    ∧ mapGet (applyList [("version", "3")] c9Record) "displayName" =
        mapGet c9Record "displayName"
    ∧ mapGet (applyList [("version", "3")] c9Record) "version" = some "3"
    ∧ updateMetadata c9mp c9fullDisk (fun _ => "e") "w" "t" [("version", "3")] =
        updateMetadata c9mp c9fullDisk (fun _ => "e2") "w" "t" [("version", "3")] :=
  ⟨(updateMetadata_merge_spec c9mp c9emptyDisk (fun _ => "e") "w" "t" [("a", "1")]).1
      rfl (by simp),
    (updateMetadata_merge_spec c9mp c9emptyDisk (fun _ => "e") "w" "t" []).2.1 rfl,
    ((updateMetadata_merge_spec c9mp c9fullDisk (fun _ => "e") "w" "t"
      [("version", "3")]).2.2.1 c9Record rfl).1,
    ((updateMetadata_merge_spec c9mp c9fullDisk (fun _ => "e") "w" "t"
      [("version", "3")]).2.2.1 c9Record rfl).2.1 "displayName" (by decide),
    ((updateMetadata_merge_spec c9mp c9fullDisk (fun _ => "e") "w" "t"
      [("version", "3")]).2.2.1 c9Record rfl).2.2 "version" "3" (by decide) (by decide),
    (updateMetadata_merge_spec c9mp c9fullDisk (fun _ => "e") "w" "t"
      [("version", "3")]).2.2.2 (fun _ => "e2")⟩

/-- C10: when the local theme record is present and the theme cache was
loaded from a fetch whose theme names are pairwise distinct, every fetched
theme whose name equals the local display name is returned as the match with
exactly its repository id, and the matcher reports no match precisely when
no fetched theme carries that name. -/
theorem theme_matchRemote_correct (tm : Bool) (d : Disk) (c : Cache) (p : String)
    (m : ThemeMeta) (items : List ThemeRec)
    (hm : d.themeMeta p = some m)
    (hc : cacheThemes (.ok items) = .ok c.themes) :
    (∀ t ∈ items, (items.map ThemeRec.name).Nodup → t.name = m.displayName →
      getMatchingTheme tm d c p =
        .ok ((if tm then ["info:matchingThemeFound"] else []), some ⟨t.repositoryId⟩))
    ∧ (getMatchingTheme tm d c p = .ok (["warn:noMatchingThemeFound"], none) ↔
      ∀ t ∈ items, t.name ≠ m.displayName) := by
  have hth : items.foldl (fun m2 t => mapSet m2 t.name t) [] = c.themes :=
    Except.ok.inj hc
  have hthemes : c.themes = applyList (items.map fun t => (t.name, t)) [] := by
    rw [← hth]
    exact foldl_set_map_eq_applyList (fun t : ThemeRec => t.name) (fun t => t) items []
  constructor
  · intro t ht hnd hname
    have hpairs_nodup : (((items.map fun t2 => (t2.name, t2)).map Prod.fst)).Nodup := by
      rw [List.map_map]
      simpa using hnd
    have hmem : (m.displayName, t) ∈ items.map fun t2 => (t2.name, t2) := by
      rw [List.mem_map]
      exact ⟨t, ht, by rw [hname]⟩
    have hkey : mapGet c.themes m.displayName = some t := by
      rw [hthemes]
      exact mapGet_applyList_nodup_mem _ _ _ _ hpairs_nodup hmem
    simp only [getMatchingTheme, hm, hkey]
  · constructor
    · intro hmatch t2 ht2 hname2
      cases hg : mapGet c.themes m.displayName with
      | some t3 =>
        simp only [getMatchingTheme, hm, hg] at hmatch
        exact Option.noConfusion (congrArg Prod.snd (Except.ok.inj hmatch))
      | none =>
        rw [hthemes, mapGet_applyList_none_iff] at hg
        obtain ⟨-, hnk⟩ := hg
        apply hnk
        rw [List.map_map]
        exact List.mem_map.mpr ⟨t2, ht2, hname2⟩
    · intro hall
      have hg : mapGet c.themes m.displayName = none := by
        rw [hthemes, mapGet_applyList_none_iff]
        refine ⟨rfl, ?_⟩
        intro hmemk
        rw [List.map_map] at hmemk
        obtain ⟨t2, ht2, hname2⟩ := List.mem_map.mp hmemk
        exact hall t2 ht2 hname2
      simp only [getMatchingTheme, hm, hg]

/-- Theme fixture for the C10 witness. -/
def c10Theme : ThemeRec := ⟨"Dark", "T1"⟩

/-- Cache fixture for the C10 witness, as produced by the theme loader. -/
def c10Cache : Cache := ⟨[], [], [], [], [], [], [("Dark", c10Theme)]⟩

/-- Disk fixture for the C10 witness with local theme display name Dark. -/
def c10Disk : Disk :=
  ⟨fun _ => none, fun _ => none, fun _ => none, fun _ => none, fun _ => none,
    fun _ => some ⟨"Dark"⟩⟩

/-- Disk fixture for the C10 witness with local theme display name Light. -/
def c10DiskMiss : Disk :=
  ⟨fun _ => none, fun _ => none, fun _ => none, fun _ => none, fun _ => none,
    fun _ => some ⟨"Light"⟩⟩

/-- Witness for C10 at the concrete fixtures, covering a hit and a miss. -/
theorem theme_matchRemote_correct_witness :
    getMatchingTheme true c10Disk c10Cache "theme/Dark" =
      .ok (["info:matchingThemeFound"], some ⟨"T1"⟩)
    ∧ getMatchingTheme true c10DiskMiss c10Cache "theme/Light" =
      .ok (["warn:noMatchingThemeFound"], none) := by
  constructor
  · have := (theme_matchRemote_correct true c10Disk c10Cache "theme/Dark"
      ⟨"Dark"⟩ [c10Theme] rfl rfl).1 c10Theme (by decide) (by decide) rfl
    simpa using this
  · exact (theme_matchRemote_correct true c10DiskMiss c10Cache "theme/Light"
      ⟨"Light"⟩ [c10Theme] rfl rfl).2.mpr (by decide)
